import Mathlib

/-!
Shallow embedding of the MySQL MCP server core (the stdio server in
src/unnamed/part_003, second document: `getConfigFromEnv`,
`createConnectionPool`, the six operations, and the
CallToolRequestSchema handler).

State that the JS module keeps in globals (`pool`, `dbConfig`) is made
explicit in a record `St`, together with instrumentation that records
what is observable of the external world: the list of SQL statements
handed to the engine (`trace`), the number of checked-out pool
connections (`checkedOut`), the set of pools on which `end()` was
called (`endedPools`), a counter of `createConnectionPool` invocations
(`connectCalls`), and a small model of the engine table store
(`store`) interpreting exactly the two DDL statements that
`createOrModifyTable` issues.

The outcomes of the asynchronous engine calls (the `await`s) are inputs:
each operation takes an oracle record giving the success or failure of
each engine round trip, in program order, together with the error
messages and result rows the engine would produce.
-/

/-- A JS value appearing as a bound statement parameter. -/
inductive Value
  | str (s : String)
  | num (n : Int)
  | null
  | undef
deriving Repr, DecidableEq

/-- A result row: field name to value, in engine order. -/
abbrev Row := List (String × Value)

/-- The resolved connection configuration `{host, user, password, database}`.
A field is `none` when the JS value is `undefined`. -/
structure Config where
  host : Option String
  user : Option String
  password : Option String
  database : Option String
deriving Repr, DecidableEq

/-- JS truthiness of an optional string: `undefined` and the empty
string are falsy, every other string is truthy. -/
def truthy : Option String → Bool
  | none => false
  | some s => !s.isEmpty

/-- JS `a || b` on optional strings: `a` when truthy, otherwise `b`. -/
def orFalsy (a b : Option String) : Option String :=
  match a with
  | some s => if s.isEmpty then b else some s
  | none => b

/-- The environment variables the server reads (plus the alias family). -/
structure EnvVars where
  mysqlHost : Option String
  mysqlUser : Option String
  mysqlPassword : Option String
  mysqlDatabase : Option String
  MYSQL_HOST : Option String
  MYSQL_USER : Option String
  MYSQL_PASSWORD : Option String
  MYSQL_DATABASE : Option String
deriving Repr, DecidableEq

/-- `getConfigFromEnv` (part_003 lines 337-350): each field is
`process.env.mysqlX || process.env.MYSQL_X`. -/
def getConfigFromEnv (e : EnvVars) : Config :=
  { host := orFalsy e.mysqlHost e.MYSQL_HOST
    user := orFalsy e.mysqlUser e.MYSQL_USER
    password := orFalsy e.mysqlPassword e.MYSQL_PASSWORD
    database := orFalsy e.mysqlDatabase e.MYSQL_DATABASE }

/-- A connection pool object: the configuration it was built from and a
creation index distinguishing pool objects. -/
structure Pool where
  cfg : Config
  id : Nat
deriving Repr, DecidableEq

/-- A statement handed to the engine, kept structured so that the model
can both render the exact SQL text the code builds and interpret the
DDL of `createOrModifyTable` on the table store. -/
inductive Stmt
  | dropIfExists (table : String)
  | createTable (table : String) (defs : List String)
  | raw (sql : String) (params : List Value)
deriving Repr, DecidableEq

/-- The SQL text of a statement, exactly as the JS code builds it. -/
def Stmt.text : Stmt → String
  | .dropIfExists t => "DROP TABLE IF EXISTS " ++ t
  | .createTable t defs => "CREATE TABLE " ++ t ++ " (" ++ String.intercalate ", " defs ++ ")"
  | .raw s _ => s

/-- The positional bound-parameter list handed to the engine alongside
the statement text (`connection.execute(sql, params)`); DDL statements
are sent with no parameters. -/
def Stmt.boundParams : Stmt → List Value
  | .raw _ p => p
  | _ => []

/-- The engine table store: table name to row count. Only the two DDL
statements issued by `createOrModifyTable` are interpreted; the effect
of arbitrary raw SQL on the store is external and left unmodelled. -/
abbrev Store := List (String × Nat)

/-- First-match lookup of a table in the store. -/
def lookupTable (st : Store) (t : String) : Option Nat :=
  match st with
  | [] => none
  | (n, k) :: rest => if n = t then some k else lookupTable rest t

/-- Engine semantics of a successfully executed statement on the store:
DROP TABLE IF EXISTS removes the table, CREATE TABLE installs it with
zero rows. -/
def applyStmt (st : Store) : Stmt → Store
  | .dropIfExists t => st.filter (fun e => e.1 != t)
  | .createTable t _ => (t, 0) :: st
  | .raw _ _ => st

/-- The mutable module state of the server together with the
observable history of its interaction with the engine. -/
structure St where
  pool : Option Pool
  dbConfig : Option Config
  nextId : Nat
  checkedOut : Nat
  trace : List Stmt
  store : Store
  endedPools : List Nat
  connectCalls : Nat
deriving Repr, DecidableEq

/-- The initial state: no pool, no configuration, empty history. -/
def initSt : St :=
  { pool := none, dbConfig := none, nextId := 0, checkedOut := 0
    trace := [], store := [], endedPools := [], connectCalls := 0 }

/-- An operation result object, with the exact optional fields the JS
return sites populate (`success` plus at most one of the others). -/
structure OpResult where
  success : Bool
  error : Option String := none
  message : Option String := none
  results : Option (List Row) := none
  affected_rows : Option Nat := none
  tables : Option (List Value) := none
  columns : Option (List Row) := none
deriving Repr, DecidableEq

/-- Oracle for `createConnectionPool`: outcome of the
`pool.getConnection()` liveness round trip. -/
structure ConnOracle where
  connOk : Bool
  connErr : String
deriving Repr, DecidableEq

/-- Oracle for the single-statement operations (`executeQuery`,
`executeCommand`, `listTables`, `describeTable`): outcome of
`pool.getConnection()`, outcome of `connection.execute`, and the rows
or affected-row count the engine returns on success. -/
structure QueryOracle where
  getConnOk : Bool
  getConnErr : String
  execOk : Bool
  execErr : String
  rows : List Row
  affectedRows : Nat
deriving Repr, DecidableEq

/-- Oracle for `createOrModifyTable`: outcome of `pool.getConnection()`
and of the two `connection.execute` calls in program order. -/
structure TableOracle where
  getConnOk : Bool
  getConnErr : String
  dropOk : Bool
  dropErr : String
  createOk : Bool
  createErr : String
deriving Repr, DecidableEq

/-- `createConnectionPool` (part_003 lines 355-385). Mirrors the source:
the required-field check returns early; otherwise the global `pool` is
assigned the newly created pool object BEFORE the liveness test
`pool.getConnection()`, and the catch branch returns a failure without
restoring the previous value of `pool`; `dbConfig` is assigned only on
success. The prior pool, when one exists, is never `end()`ed here. -/
def createConnectionPool (config : Config) (o : ConnOracle) (s : St) : OpResult × St :=
  let s := { s with connectCalls := s.connectCalls + 1 }
  if !truthy config.host || !truthy config.user || !truthy config.password then
    ({ success := false, error := some "Missing database connection parameters" }, s)
  else
    let newPool : Pool := { cfg := config, id := s.nextId }
    let s := { s with pool := some newPool, nextId := s.nextId + 1 }
    if o.connOk then
      -- `const conn = await pool.getConnection(); conn.release();`
      -- the test connection is acquired and released back to back,
      -- so checkedOut is unchanged on balance
      ({ success := true, message := some "Connected to database successfully" },
       { s with dbConfig := some config })
    else
      ({ success := false, error := some o.connErr }, s)

/-- `executeQuery` (part_003 lines 435-452): guard on `pool`, acquire a
connection, `connection.execute(sql, params)`, release in `finally`. -/
def executeQuery (sql : String) (params : List Value) (o : QueryOracle) (s : St) : OpResult × St :=
  match s.pool with
  | none => ({ success := false, error := some "Database not connected" }, s)
  | some _ =>
    if o.getConnOk then
      let s := { s with checkedOut := s.checkedOut + 1 }
      let stmt := Stmt.raw sql params
      let s := { s with trace := s.trace ++ [stmt] }
      if o.execOk then
        ({ success := true, results := some o.rows },
         { s with store := applyStmt s.store stmt, checkedOut := s.checkedOut - 1 })
      else
        ({ success := false, error := some o.execErr },
         { s with checkedOut := s.checkedOut - 1 })
    else
      ({ success := false, error := some o.getConnErr }, s)

/-- `executeCommand` (part_003 lines 457-474): like `executeQuery` but
returning `affected_rows`. -/
def executeCommand (sql : String) (params : List Value) (o : QueryOracle) (s : St) : OpResult × St :=
  match s.pool with
  | none => ({ success := false, error := some "Database not connected" }, s)
  | some _ =>
    if o.getConnOk then
      let s := { s with checkedOut := s.checkedOut + 1 }
      let stmt := Stmt.raw sql params
      let s := { s with trace := s.trace ++ [stmt] }
      if o.execOk then
        ({ success := true, affected_rows := some o.affectedRows },
         { s with store := applyStmt s.store stmt, checkedOut := s.checkedOut - 1 })
      else
        ({ success := false, error := some o.execErr },
         { s with checkedOut := s.checkedOut - 1 })
    else
      ({ success := false, error := some o.getConnErr }, s)

/-- JS `Object.values(row)[0]` on a result row. -/
def firstColumn (r : Row) : Value :=
  match r with
  | [] => Value.undef
  | (_, v) :: _ => v

/-- `listTables` (part_003 lines 479-498): executes `SHOW TABLES` and
maps each row to its first column value. -/
def listTables (o : QueryOracle) (s : St) : OpResult × St :=
  match s.pool with
  | none => ({ success := false, error := some "Database not connected" }, s)
  | some _ =>
    if o.getConnOk then
      let s := { s with checkedOut := s.checkedOut + 1 }
      let stmt := Stmt.raw "SHOW TABLES" []
      let s := { s with trace := s.trace ++ [stmt] }
      if o.execOk then
        ({ success := true, tables := some (o.rows.map firstColumn) },
         { s with checkedOut := s.checkedOut - 1 })
      else
        ({ success := false, error := some o.execErr },
         { s with checkedOut := s.checkedOut - 1 })
    else
      ({ success := false, error := some o.getConnErr }, s)

/-- `describeTable` (part_003 lines 503-520): interpolates the caller
supplied table name directly into the statement text
(`DESCRIBE ${table}`), with no validation and no bound parameters. -/
def describeTable (table : String) (o : QueryOracle) (s : St) : OpResult × St :=
  match s.pool with
  | none => ({ success := false, error := some "Database not connected" }, s)
  | some _ =>
    if o.getConnOk then
      let s := { s with checkedOut := s.checkedOut + 1 }
      let stmt := Stmt.raw ("DESCRIBE " ++ table) []
      let s := { s with trace := s.trace ++ [stmt] }
      if o.execOk then
        ({ success := true, columns := some o.rows },
         { s with checkedOut := s.checkedOut - 1 })
      else
        ({ success := false, error := some o.execErr },
         { s with checkedOut := s.checkedOut - 1 })
    else
      ({ success := false, error := some o.getConnErr }, s)

/-- A column specification for `create_or_modify_table`. `default` is
`none` when the JS value is `undefined` (the code tests
`col.default !== undefined`); when present, the interpolated rendering
of the value is kept as a string. -/
structure Col where
  name : String
  type : String
  not_null : Bool
  default : Option String
  auto_increment : Bool
  primary_key : Bool
deriving Repr, DecidableEq

/-- A unique-key specification: `UNIQUE KEY ${key.name} (${key.columns})`;
`columns` is kept as its interpolated rendering. -/
structure UniqueKey where
  name : String
  columns : String
deriving Repr, DecidableEq

/-- One column definition, built by the successive string appends of
the loop body in `createOrModifyTable` (part_003 lines 404-411). -/
def colDef (col : Col) : String :=
  let d := col.name ++ " " ++ col.type
  let d := if col.not_null then d ++ " NOT NULL" else d
  let d := match col.default with
    | some v => d ++ " DEFAULT " ++ v
    | none => d
  let d := if col.auto_increment then d ++ " AUTO_INCREMENT" else d
  if col.primary_key then d ++ " PRIMARY KEY" else d

/-- One unique-key definition (part_003 line 416). -/
def ukDef (k : UniqueKey) : String :=
  "UNIQUE KEY " ++ k.name ++ " (" ++ k.columns ++ ")"

/-- `createOrModifyTable` (part_003 lines 390-430): guard on `pool`,
acquire a connection, `DROP TABLE IF EXISTS ${table_name}`, build the
column and unique-key definitions, `CREATE TABLE ${table_name} (...)`,
release in `finally`. The caller-supplied identifiers are interpolated
into the DDL text with no validation. -/
def createOrModifyTable (table_name : String) (columns : List Col) (unique_keys : List UniqueKey)
    (o : TableOracle) (s : St) : OpResult × St :=
  match s.pool with
  | none => ({ success := false, error := some "Database not connected" }, s)
  | some _ =>
    if o.getConnOk then
      let s := { s with checkedOut := s.checkedOut + 1 }
      let dropStmt := Stmt.dropIfExists table_name
      let s := { s with trace := s.trace ++ [dropStmt] }
      if o.dropOk then
        let s := { s with store := applyStmt s.store dropStmt }
        let defs := columns.map colDef ++ unique_keys.map ukDef
        let createStmt := Stmt.createTable table_name defs
        let s := { s with trace := s.trace ++ [createStmt] }
        if o.createOk then
          let s := { s with store := applyStmt s.store createStmt }
          ({ success := true,
             message := some ("Table " ++ table_name ++ " created/modified successfully") },
           { s with checkedOut := s.checkedOut - 1 })
        else
          ({ success := false, error := some o.createErr },
           { s with checkedOut := s.checkedOut - 1 })
      else
        ({ success := false, error := some o.dropErr },
         { s with checkedOut := s.checkedOut - 1 })
    else
      ({ success := false, error := some o.getConnErr }, s)

/-- A well-formed tool-call request, one constructor per registered
tool plus `unknown` for a request naming an unregistered tool.
Optional arguments are `none` when absent from the request. -/
inductive ToolCall
  | connect_db (host user password database : Option String)
  | create_or_modify_table (table_name : String) (columns : List Col)
      (unique_keys : Option (List UniqueKey))
  | query (sql : String) (params : Option (List Value))
  | execute (sql : String) (params : Option (List Value))
  | list_tables
  | describe_table (table : String)
  | unknown (name : String)
deriving Repr, DecidableEq

/-- The `request.params.name` string of a request. For `unknown` the
name must not be one of the registered tool names, since the JS switch
dispatches on this string. -/
def ToolCall.toolName : ToolCall → String
  | .connect_db .. => "connect_db"
  | .create_or_modify_table .. => "create_or_modify_table"
  | .query .. => "query"
  | .execute .. => "execute"
  | .list_tables => "list_tables"
  | .describe_table _ => "describe_table"
  | .unknown n => n

/-- The names the switch statement recognizes. -/
def registeredTools : List String :=
  ["connect_db", "create_or_modify_table", "query", "execute", "list_tables", "describe_table"]

/-- True for the five registered operations other than `connect_db`. -/
def ToolCall.isNonConnectOp : ToolCall → Bool
  | .connect_db .. => false
  | .unknown _ => false
  | _ => true

/-- The engine-call outcomes one dispatched request can consume: the
silent auto-connect attempt, the `connect_db` tool, the
single-statement operations, and `create_or_modify_table`. -/
structure DispatchOracle where
  autoConn : ConnOracle
  conn : ConnOracle
  q : QueryOracle
  t : TableOracle
deriving Repr, DecidableEq

/-- The text content of a tool-call response: either the JSON-encoded
operation result (the normal return sites) or the `Error: ...` string
built by the catch branch. -/
inductive RText
  | json (r : OpResult)
  | errorText (msg : String)
deriving Repr, DecidableEq

/-- One tool-call response envelope: its text content and the `isError`
flag, which only the catch branch sets (absent, hence falsy, on the
normal return sites). -/
structure McpResponse where
  rtext : RText
  isError : Bool
deriving Repr, DecidableEq

/-- The CallToolRequestSchema handler (part_003 lines 710-765). First
the auto-connect step: when no pool exists and the tool is not
`connect_db`, the environment configuration is resolved and, only when
host, user and password are all truthy, `createConnectionPool` is
invoked once with its result discarded. Then the switch dispatches on
the tool name; the default branch throws McpError(MethodNotFound,
`Unknown tool: ...`), which the surrounding try/catch converts into an
`isError` response. The handler is a total function: it returns exactly
one response for every request. -/
def handleRequest (req : ToolCall) (env : EnvVars) (o : DispatchOracle) (s : St) :
    McpResponse × St :=
  let s :=
    if s.pool.isNone && req.toolName != "connect_db" then
      let envConfig := getConfigFromEnv env
      if truthy envConfig.host && truthy envConfig.user && truthy envConfig.password then
        (createConnectionPool envConfig o.autoConn s).2
      else s
    else s
  match req with
  | .connect_db h u p d =>
    let r := createConnectionPool { host := h, user := u, password := p, database := d } o.conn s
    ({ rtext := .json r.1, isError := false }, r.2)
  | .create_or_modify_table tn cols uks =>
    let r := createOrModifyTable tn cols (uks.getD []) o.t s
    ({ rtext := .json r.1, isError := false }, r.2)
  | .query sql params =>
    let r := executeQuery sql (params.getD []) o.q s
    ({ rtext := .json r.1, isError := false }, r.2)
  | .execute sql params =>
    let r := executeCommand sql (params.getD []) o.q s
    ({ rtext := .json r.1, isError := false }, r.2)
  | .list_tables =>
    let r := listTables o.q s
    ({ rtext := .json r.1, isError := false }, r.2)
  | .describe_table t =>
    let r := describeTable t o.q s
    ({ rtext := .json r.1, isError := false }, r.2)
  | .unknown n =>
    ({ rtext := .errorText ("Error: " ++ ("Unknown tool: " ++ n)), isError := true }, s)

/-- Running a sequence of `connect_db` calls one after the other,
keeping the state (the dispatcher threads nothing else between calls). -/
def connectSeq : List Config → ConnOracle → St → St
  | [], _, s => s
  | c :: cs, o, s => connectSeq cs o (createConnectionPool c o s).2

/-- The safe identifier pattern demanded by the spec (alphanumeric plus
underscore, nonempty). Modelled from the spec: this predicate appears
nowhere in the source; it is stated here only to express what the spec
requires of identifier validation. -/
def specSafeIdent (s : String) : Bool :=
  !s.data.isEmpty && s.data.all (fun c => c.isAlphanum || c == '_')

/-- A valid demonstration configuration. -/
def cfgDemo : Config :=
  { host := some "h", user := some "u", password := some "p", database := some "d" }

/-- A second valid configuration, distinct from `cfgDemo`. -/
def cfg2 : Config :=
  { host := some "h2", user := some "u2", password := some "p2", database := none }

/-- A state in which a pool built from `cfgDemo` is live. -/
def liveSt : St :=
  { initSt with pool := some { cfg := cfgDemo, id := 0 }, dbConfig := some cfgDemo, nextId := 1 }

/-- A query oracle on which every engine round trip succeeds. -/
def okQueryOracle : QueryOracle :=
  { getConnOk := true, getConnErr := "e1", execOk := true, execErr := "e2"
    rows := [], affectedRows := 0 }

/-- A table oracle on which every engine round trip succeeds. -/
def okTableOracle : TableOracle :=
  { getConnOk := true, getConnErr := "e1", dropOk := true, dropErr := "e2"
    createOk := true, createErr := "e3" }

/-- A connection oracle whose liveness round trip fails. -/
def failConnOracle : ConnOracle :=
  { connOk := false, connErr := "connect ECONNREFUSED" }

/-- A connection oracle whose liveness round trip succeeds. -/
def okConnOracle : ConnOracle :=
  { connOk := true, connErr := "e0" }

/-- A live state whose store holds a table `users` with 3 rows. -/
def tableSt : St := { liveSt with store := [("users", 3)] }

/-- Demonstration columns exercising every qualifier flag. -/
def demoCols : List Col :=
  [{ name := "id", type := "INT", not_null := true, default := none,
     auto_increment := true, primary_key := true },
   { name := "name", type := "VARCHAR(255)", not_null := false, default := some "NULL",
     auto_increment := false, primary_key := false }]

/-- A demonstration unique key. -/
def demoUks : List UniqueKey := [{ name := "uk1", columns := "name" }]

/-- Environment variables carrying full credentials (MYSQL_* family). -/
def envFull : EnvVars :=
  { mysqlHost := none, mysqlUser := none, mysqlPassword := none, mysqlDatabase := none,
    MYSQL_HOST := some "h", MYSQL_USER := some "u", MYSQL_PASSWORD := some "p",
    MYSQL_DATABASE := none }

/-- Environment variables with no credentials at all. -/
def envEmpty : EnvVars :=
  { mysqlHost := none, mysqlUser := none, mysqlPassword := none, mysqlDatabase := none,
    MYSQL_HOST := none, MYSQL_USER := none, MYSQL_PASSWORD := none, MYSQL_DATABASE := none }

/-- A dispatch oracle on which every connection round trip fails (the
database server is unreachable). -/
def oracleConnFail : DispatchOracle :=
  { autoConn := { connOk := false, connErr := "connect ECONNREFUSED" },
    conn := okConnOracle,
    q := { getConnOk := false, getConnErr := "connect ECONNREFUSED", execOk := false,
           execErr := "e2", rows := [], affectedRows := 0 },
    t := okTableOracle }

/-- Well-formedness of a dispatch oracle: the engine reports every
failure with a non-empty message (as `error.message` of a real engine
error is). -/
def DispatchOracle.wf (o : DispatchOracle) : Prop :=
  o.autoConn.connErr ≠ "" ∧ o.conn.connErr ≠ "" ∧
  o.q.getConnErr ≠ "" ∧ o.q.execErr ≠ "" ∧
  o.t.getConnErr ≠ "" ∧ o.t.dropErr ≠ "" ∧ o.t.createErr ≠ ""

/-- A dispatch oracle with all failure branches failing and non-empty
error messages everywhere. -/
def wfFailOracle : DispatchOracle :=
  { autoConn := { connOk := false, connErr := "ea" },
    conn := { connOk := false, connErr := "ec" },
    q := { getConnOk := true, getConnErr := "eg", execOk := false, execErr := "ee",
           rows := [], affectedRows := 0 },
    t := okTableOracle }

/-- C9: every operation that acquires a connection from the pool
(query, execute, list_tables, describe_table, create_or_modify_table)
releases it before returning, on the success path and on every error
path: the number of checked-out pool connections after each operation
equals the number before it, for every oracle outcome. -/
theorem operations_release_connections (sql : String) (ps : List Value) (tbl : String)
    (tn : String) (cols : List Col) (uks : List UniqueKey)
    (oq : QueryOracle) (ot : TableOracle) (s : St) :
    (executeQuery sql ps oq s).2.checkedOut = s.checkedOut ∧
    (executeCommand sql ps oq s).2.checkedOut = s.checkedOut ∧
    (listTables oq s).2.checkedOut = s.checkedOut ∧
    (describeTable tbl oq s).2.checkedOut = s.checkedOut ∧
    (createOrModifyTable tn cols uks ot s).2.checkedOut = s.checkedOut := by
  refine ⟨?_, ?_, ?_, ?_, ?_⟩
  · unfold executeQuery
    cases s.pool <;> cases oq.getConnOk <;> cases oq.execOk <;> simp
  · unfold executeCommand
    cases s.pool <;> cases oq.getConnOk <;> cases oq.execOk <;> simp
  · unfold listTables
    cases s.pool <;> cases oq.getConnOk <;> cases oq.execOk <;> simp
  · unfold describeTable
    cases s.pool <;> cases oq.getConnOk <;> cases oq.execOk <;> simp
  · unfold createOrModifyTable
    cases s.pool <;> cases ot.getConnOk <;> cases ot.dropOk <;> cases ot.createOk <;> simp

/-- C10: a connect_db call in which host, user or password is missing
or empty fails with exactly the error "Missing database connection
parameters" and has no side effect: the returned state is the input
state except for the ghost call counter, so the pool, the stored
configuration, and all engine-visible state are untouched. -/
theorem connect_missing_params_no_side_effect (cfg : Config) (o : ConnOracle) (s : St)
    (h : truthy cfg.host = false ∨ truthy cfg.user = false ∨ truthy cfg.password = false) :
    createConnectionPool cfg o s =
      ({ success := false, error := some "Missing database connection parameters" },
       { s with connectCalls := s.connectCalls + 1 }) := by
  unfold createConnectionPool
  rcases h with h | h | h <;> simp [h]

/-- Witness for C10 at a configuration with an empty password. -/
theorem connect_missing_params_no_side_effect_witness :
    (truthy (some "h") = false ∨ truthy (some "u") = false ∨ truthy (some "") = false) ∧
    createConnectionPool
        { host := some "h", user := some "u", password := some "", database := none }
        okConnOracle initSt =
      ({ success := false, error := some "Missing database connection parameters" },
       { initSt with connectCalls := initSt.connectCalls + 1 }) :=
  ⟨Or.inr (Or.inr (by decide)),
   connect_missing_params_no_side_effect
     { host := some "h", user := some "u", password := some "", database := none }
     okConnOracle initSt (Or.inr (Or.inr (by decide)))⟩

/-- C1: evaluation of `createConnectionPool` at a failing liveness
round trip, starting from a state with no pool. The call fails as the
claim says, but the newly created pool object remains assigned as the
current pool: the current pool after the call is NOT the same as
before it, so the half-initialized pool stays reachable by later
operations (the source assigns the global `pool` before the
`pool.getConnection()` test and the catch branch never clears it). -/
theorem connect_liveness_failure_retains_pool :
    initSt.pool = none ∧
    (createConnectionPool cfgDemo failConnOracle initSt).1 =
      { success := false, error := some "connect ECONNREFUSED" } ∧
    (createConnectionPool cfgDemo failConnOracle initSt).2.pool =
      some { cfg := cfgDemo, id := 0 } ∧
    (createConnectionPool cfgDemo failConnOracle initSt).2.pool ≠ initSt.pool ∧
    (createConnectionPool cfgDemo failConnOracle initSt).2.dbConfig = none := by
  decide

/-- C2 counterexample: a successful connect_db while the `cfgDemo` pool
(id 0) is live installs the new pool but never calls `end()` on the
prior one: after the call `endedPools` is still empty, so the prior
pool was discarded without being closed, refuting the claim that it is
closed before the new pool is built. -/
theorem connect_success_never_closes_prior_pool :
    liveSt.pool = some { cfg := cfgDemo, id := 0 } ∧
    (createConnectionPool cfg2 okConnOracle liveSt).1.success = true ∧
    (createConnectionPool cfg2 okConnOracle liveSt).2.pool = some { cfg := cfg2, id := 1 } ∧
    (createConnectionPool cfg2 okConnOracle liveSt).2.endedPools = [] := by
  decide

/-- Helper: a `createConnectionPool` call with all required fields
truthy and a succeeding liveness round trip installs the new pool,
stores the configuration, and touches nothing else. -/
theorem createConnectionPool_success (c : Config) (o : ConnOracle) (s : St)
    (hok : o.connOk = true) (hh : truthy c.host = true) (hu : truthy c.user = true)
    (hp : truthy c.password = true) :
    createConnectionPool c o s =
      ({ success := true, message := some "Connected to database successfully" },
       { s with connectCalls := s.connectCalls + 1,
                pool := some { cfg := c, id := s.nextId },
                nextId := s.nextId + 1,
                dbConfig := some c }) := by
  unfold createConnectionPool
  simp [hh, hu, hp, hok]

/-- C2 amended: after any nonempty sequence of successful connect_db
calls, exactly one pool is current (the `pool` field holds at most one
handle) and both it and the stored configuration reflect the last
configuration of the sequence; prior pools are discarded by
overwriting but never closed (`endedPools` never grows). -/
theorem connect_sequence_singleton_pool (cs : List Config) (o : ConnOracle) (s : St)
    (hok : o.connOk = true)
    (hv : ∀ c ∈ cs, truthy c.host = true ∧ truthy c.user = true ∧ truthy c.password = true)
    (hne : cs ≠ []) :
    (∃ p : Pool, (connectSeq cs o s).pool = some p ∧ some p.cfg = cs.getLast?) ∧
    (connectSeq cs o s).dbConfig = cs.getLast? ∧
    (connectSeq cs o s).endedPools = s.endedPools := by
  induction cs generalizing s with
  | nil => exact absurd rfl hne
  | cons c cs ih =>
    have hc := hv c (List.mem_cons_self c cs)
    cases cs with
    | nil =>
      rw [connectSeq, connectSeq,
        createConnectionPool_success c o s hok hc.1 hc.2.1 hc.2.2]
      exact ⟨⟨{ cfg := c, id := s.nextId }, rfl, rfl⟩, rfl, rfl⟩
    | cons c2 cs2 =>
      have hstep := createConnectionPool_success c o s hok hc.1 hc.2.1 hc.2.2
      have hv2 : ∀ x ∈ c2 :: cs2, truthy x.host = true ∧ truthy x.user = true ∧
          truthy x.password = true :=
        fun x hx => hv x (List.mem_cons_of_mem c hx)
      have h2 := ih ((createConnectionPool c o s).2) hv2 (List.cons_ne_nil c2 cs2)
      rw [connectSeq]
      rw [hstep] at h2 ⊢
      refine ⟨h2.1, ?_, ?_⟩
      · rw [h2.2.1]
        simp [List.getLast?]
      · rw [h2.2.2]

/-- Witness for the amended C2 at the two-configuration sequence
`[cfgDemo, cfg2]` from the initial state. -/
theorem connect_sequence_singleton_pool_witness :
    (okConnOracle.connOk = true ∧
     (∀ c ∈ [cfgDemo, cfg2],
        truthy c.host = true ∧ truthy c.user = true ∧ truthy c.password = true) ∧
     ([cfgDemo, cfg2] : List Config) ≠ []) ∧
    ((∃ p : Pool, (connectSeq [cfgDemo, cfg2] okConnOracle initSt).pool = some p ∧
        some p.cfg = [cfgDemo, cfg2].getLast?) ∧
     (connectSeq [cfgDemo, cfg2] okConnOracle initSt).dbConfig = [cfgDemo, cfg2].getLast? ∧
     (connectSeq [cfgDemo, cfg2] okConnOracle initSt).endedPools = initSt.endedPools) :=
  ⟨⟨by decide, by decide, by decide⟩,
   connect_sequence_singleton_pool [cfgDemo, cfg2] okConnOracle initSt
     (by decide) (by decide) (by decide)⟩

/-- C3: evaluation of the two identifier-consuming operations at
identifiers that do not match the safe pattern (alphanumeric plus
underscore). No validation exists in the source: both calls succeed and
the unvalidated identifier is interpolated verbatim into the statement
text handed to the engine, where the claim requires the call to fail
with no statement sent. `specSafeIdent` is the pattern the spec
demands; it appears nowhere in the source. -/
theorem unvalidated_identifier_reaches_engine :
    specSafeIdent "users; DROP TABLE users" = false ∧
    (describeTable "users; DROP TABLE users" okQueryOracle liveSt).1.success = true ∧
    (describeTable "users; DROP TABLE users" okQueryOracle liveSt).2.trace.map Stmt.text =
      ["DESCRIBE users; DROP TABLE users"] ∧
    specSafeIdent "users; --" = false ∧
    (createOrModifyTable "users; --" [] [] okTableOracle liveSt).1.success = true ∧
    (createOrModifyTable "users; --" [] [] okTableOracle liveSt).2.trace.map Stmt.text =
      ["DROP TABLE IF EXISTS users; --", "CREATE TABLE users; -- ()"] := by
  decide

/-- C7: with a live pool and a cooperating engine, create_or_modify_table
first sends DROP TABLE IF EXISTS for the named table and then one
CREATE TABLE whose definition list is the columns in input order (each
extended, in order, with NOT NULL, DEFAULT value, AUTO_INCREMENT and
PRIMARY KEY exactly when the flag is set) followed by one UNIQUE KEY
definition per unique_keys entry; on the store semantics the named
table ends present and empty, whatever rows it held before. -/
theorem create_or_modify_drop_then_create (tn : String) (cols : List Col)
    (uks : List UniqueKey) (o : TableOracle) (s : St) (p : Pool)
    (hp : s.pool = some p) (h1 : o.getConnOk = true) (h2 : o.dropOk = true)
    (h3 : o.createOk = true) :
    (createOrModifyTable tn cols uks o s).1 =
      { success := true,
        message := some ("Table " ++ tn ++ " created/modified successfully") } ∧
    (createOrModifyTable tn cols uks o s).2.trace =
      s.trace ++ [Stmt.dropIfExists tn,
        Stmt.createTable tn (cols.map colDef ++ uks.map ukDef)] ∧
    (createOrModifyTable tn cols uks o s).2.trace.map Stmt.text =
      s.trace.map Stmt.text ++
        ["DROP TABLE IF EXISTS " ++ tn,
         "CREATE TABLE " ++ tn ++ " (" ++
           String.intercalate ", " (cols.map colDef ++ uks.map ukDef) ++ ")"] ∧
    (∀ c : Col, colDef c =
      c.name ++ " " ++ c.type ++
      (if c.not_null then " NOT NULL" else "") ++
      (match c.default with | some v => " DEFAULT " ++ v | none => "") ++
      (if c.auto_increment then " AUTO_INCREMENT" else "") ++
      (if c.primary_key then " PRIMARY KEY" else "")) ∧
    (∀ k : UniqueKey, ukDef k = "UNIQUE KEY " ++ k.name ++ " (" ++ k.columns ++ ")") ∧
    lookupTable (createOrModifyTable tn cols uks o s).2.store tn = some 0 := by
  refine ⟨?_, ?_, ?_, ?_, fun k => rfl, ?_⟩
  · unfold createOrModifyTable
    rw [hp]
    simp [h1, h2, h3]
  · unfold createOrModifyTable
    rw [hp]
    simp [h1, h2, h3]
  · unfold createOrModifyTable
    rw [hp]
    simp [h1, h2, h3, Stmt.text]
  · intro c
    rcases c with ⟨n, ty, nn, df, ai, pk⟩
    cases nn <;> cases df <;> cases ai <;> cases pk <;>
      simp [colDef, String.append_assoc] <;> try rfl
  · unfold createOrModifyTable
    rw [hp]
    simp [h1, h2, h3, applyStmt, lookupTable]

/-- Witness for C7: recreating `users`, which held 3 rows, leaves it
present and empty, and the two statements carry the expected text. -/
theorem create_or_modify_drop_then_create_witness :
    (tableSt.pool = some { cfg := cfgDemo, id := 0 } ∧ okTableOracle.getConnOk = true ∧
     okTableOracle.dropOk = true ∧ okTableOracle.createOk = true) ∧
    lookupTable tableSt.store "users" = some 3 ∧
    lookupTable (createOrModifyTable "users" demoCols demoUks okTableOracle tableSt).2.store
      "users" = some 0 ∧
    (createOrModifyTable "users" demoCols demoUks okTableOracle tableSt).2.trace.map Stmt.text =
      ["DROP TABLE IF EXISTS users",
       "CREATE TABLE users (id INT NOT NULL AUTO_INCREMENT PRIMARY KEY, " ++
         "name VARCHAR(255) DEFAULT NULL, UNIQUE KEY uk1 (name))"] :=
  ⟨⟨rfl, rfl, rfl, rfl⟩, by decide,
   (create_or_modify_drop_then_create "users" demoCols demoUks okTableOracle tableSt
      { cfg := cfgDemo, id := 0 } rfl rfl rfl rfl).2.2.2.2.2,
   by decide⟩

/-- C8: for query and execute the statement text handed to the engine
is exactly the caller-supplied sql string and the parameter list is
passed alongside it as a separate positional bound-parameter list; the
statement text never depends on the parameter values. -/
theorem query_execute_parameter_binding (sql : String) (ps : List Value)
    (o : QueryOracle) (s : St) (p : Pool)
    (hp : s.pool = some p) (hc : o.getConnOk = true) :
    (executeQuery sql ps o s).2.trace = s.trace ++ [Stmt.raw sql ps] ∧
    (executeCommand sql ps o s).2.trace = s.trace ++ [Stmt.raw sql ps] ∧
    Stmt.text (Stmt.raw sql ps) = sql ∧
    Stmt.boundParams (Stmt.raw sql ps) = ps ∧
    (∀ ps2 : List Value,
      (executeQuery sql ps2 o s).2.trace.map Stmt.text =
        (executeQuery sql ps o s).2.trace.map Stmt.text) := by
  refine ⟨?_, ?_, rfl, rfl, ?_⟩
  · unfold executeQuery
    rw [hp]
    cases he : o.execOk <;> simp [hc, he]
  · unfold executeCommand
    rw [hp]
    cases he : o.execOk <;> simp [hc, he]
  · intro ps2
    unfold executeQuery
    rw [hp]
    cases he : o.execOk <;> simp [hc, he, Stmt.text]

/-- Witness for C8 at the spec scenario query with one bound value. -/
theorem query_execute_parameter_binding_witness :
    (liveSt.pool = some { cfg := cfgDemo, id := 0 } ∧ okQueryOracle.getConnOk = true) ∧
    ((executeQuery "SELECT * FROM users WHERE id = ?" [Value.num 1] okQueryOracle liveSt).2.trace
        = liveSt.trace ++ [Stmt.raw "SELECT * FROM users WHERE id = ?" [Value.num 1]] ∧
     (executeCommand "SELECT * FROM users WHERE id = ?" [Value.num 1] okQueryOracle liveSt).2.trace
        = liveSt.trace ++ [Stmt.raw "SELECT * FROM users WHERE id = ?" [Value.num 1]] ∧
     Stmt.text (Stmt.raw "SELECT * FROM users WHERE id = ?" [Value.num 1]) =
       "SELECT * FROM users WHERE id = ?" ∧
     Stmt.boundParams (Stmt.raw "SELECT * FROM users WHERE id = ?" [Value.num 1]) =
       [Value.num 1] ∧
     (∀ ps2 : List Value,
       (executeQuery "SELECT * FROM users WHERE id = ?" ps2 okQueryOracle liveSt).2.trace.map
           Stmt.text =
         (executeQuery "SELECT * FROM users WHERE id = ?" [Value.num 1] okQueryOracle
             liveSt).2.trace.map Stmt.text)) :=
  ⟨⟨rfl, rfl⟩,
   query_execute_parameter_binding "SELECT * FROM users WHERE id = ?" [Value.num 1]
     okQueryOracle liveSt { cfg := cfgDemo, id := 0 } rfl rfl⟩

/-- Helper: `executeQuery` never touches the pool handle. -/
theorem executeQuery_pool (sql : String) (ps : List Value) (o : QueryOracle) (s : St) :
    (executeQuery sql ps o s).2.pool = s.pool := by
  unfold executeQuery
  cases hp : s.pool <;> cases o.getConnOk <;> cases o.execOk <;> simp [hp]

/-- Helper: `executeQuery` never calls the connection manager. -/
theorem executeQuery_connectCalls (sql : String) (ps : List Value) (o : QueryOracle) (s : St) :
    (executeQuery sql ps o s).2.connectCalls = s.connectCalls := by
  unfold executeQuery
  cases hp : s.pool <;> cases o.getConnOk <;> cases o.execOk <;> simp [hp]

/-- Helper: `executeCommand` never touches the pool handle. -/
theorem executeCommand_pool (sql : String) (ps : List Value) (o : QueryOracle) (s : St) :
    (executeCommand sql ps o s).2.pool = s.pool := by
  unfold executeCommand
  cases hp : s.pool <;> cases o.getConnOk <;> cases o.execOk <;> simp [hp]

/-- Helper: `executeCommand` never calls the connection manager. -/
theorem executeCommand_connectCalls (sql : String) (ps : List Value) (o : QueryOracle) (s : St) :
    (executeCommand sql ps o s).2.connectCalls = s.connectCalls := by
  unfold executeCommand
  cases hp : s.pool <;> cases o.getConnOk <;> cases o.execOk <;> simp [hp]

/-- Helper: `listTables` never touches the pool handle. -/
theorem listTables_pool (o : QueryOracle) (s : St) :
    (listTables o s).2.pool = s.pool := by
  unfold listTables
  cases hp : s.pool <;> cases o.getConnOk <;> cases o.execOk <;> simp [hp]

/-- Helper: `listTables` never calls the connection manager. -/
theorem listTables_connectCalls (o : QueryOracle) (s : St) :
    (listTables o s).2.connectCalls = s.connectCalls := by
  unfold listTables
  cases hp : s.pool <;> cases o.getConnOk <;> cases o.execOk <;> simp [hp]

/-- Helper: `describeTable` never touches the pool handle. -/
theorem describeTable_pool (t : String) (o : QueryOracle) (s : St) :
    (describeTable t o s).2.pool = s.pool := by
  unfold describeTable
  cases hp : s.pool <;> cases o.getConnOk <;> cases o.execOk <;> simp [hp]

/-- Helper: `describeTable` never calls the connection manager. -/
theorem describeTable_connectCalls (t : String) (o : QueryOracle) (s : St) :
    (describeTable t o s).2.connectCalls = s.connectCalls := by
  unfold describeTable
  cases hp : s.pool <;> cases o.getConnOk <;> cases o.execOk <;> simp [hp]

/-- Helper: `createOrModifyTable` never touches the pool handle. -/
theorem createOrModifyTable_pool (tn : String) (cols : List Col) (uks : List UniqueKey)
    (o : TableOracle) (s : St) :
    (createOrModifyTable tn cols uks o s).2.pool = s.pool := by
  unfold createOrModifyTable
  cases hp : s.pool <;> cases o.getConnOk <;> cases o.dropOk <;> cases o.createOk <;> simp [hp]

/-- Helper: `createOrModifyTable` never calls the connection manager. -/
theorem createOrModifyTable_connectCalls (tn : String) (cols : List Col)
    (uks : List UniqueKey) (o : TableOracle) (s : St) :
    (createOrModifyTable tn cols uks o s).2.connectCalls = s.connectCalls := by
  unfold createOrModifyTable
  cases hp : s.pool <;> cases o.getConnOk <;> cases o.dropOk <;> cases o.createOk <;> simp [hp]

/-- Helper: a failing `createConnectionPool` result carries no payload
field and a non-empty error string (given the engine reports failures
with non-empty messages). -/
theorem createConnectionPool_err_shape (c : Config) (o : ConnOracle) (s : St)
    (h : o.connErr ≠ "") :
    (createConnectionPool c o s).1.success = false →
      (createConnectionPool c o s).1.message = none ∧
      (createConnectionPool c o s).1.results = none ∧
      (createConnectionPool c o s).1.affected_rows = none ∧
      (createConnectionPool c o s).1.tables = none ∧
      (createConnectionPool c o s).1.columns = none ∧
      ∃ m, (createConnectionPool c o s).1.error = some m ∧ m ≠ "" := by
  unfold createConnectionPool
  split
  · simp
  · cases o.connOk <;> simp <;> exact h

/-- Helper: a failing `executeQuery` result carries no payload field
and a non-empty error string. -/
theorem executeQuery_err_shape (sql : String) (ps : List Value) (o : QueryOracle) (s : St)
    (h1 : o.getConnErr ≠ "") (h2 : o.execErr ≠ "") :
    (executeQuery sql ps o s).1.success = false →
      (executeQuery sql ps o s).1.message = none ∧
      (executeQuery sql ps o s).1.results = none ∧
      (executeQuery sql ps o s).1.affected_rows = none ∧
      (executeQuery sql ps o s).1.tables = none ∧
      (executeQuery sql ps o s).1.columns = none ∧
      ∃ m, (executeQuery sql ps o s).1.error = some m ∧ m ≠ "" := by
  unfold executeQuery
  cases hp : s.pool <;> cases o.getConnOk <;> cases o.execOk <;> simp <;>
    first
      | exact h1
      | exact h2

/-- Helper: a failing `executeCommand` result carries no payload field
and a non-empty error string. -/
theorem executeCommand_err_shape (sql : String) (ps : List Value) (o : QueryOracle) (s : St)
    (h1 : o.getConnErr ≠ "") (h2 : o.execErr ≠ "") :
    (executeCommand sql ps o s).1.success = false →
      (executeCommand sql ps o s).1.message = none ∧
      (executeCommand sql ps o s).1.results = none ∧
      (executeCommand sql ps o s).1.affected_rows = none ∧
      (executeCommand sql ps o s).1.tables = none ∧
      (executeCommand sql ps o s).1.columns = none ∧
      ∃ m, (executeCommand sql ps o s).1.error = some m ∧ m ≠ "" := by
  unfold executeCommand
  cases hp : s.pool <;> cases o.getConnOk <;> cases o.execOk <;> simp <;>
    first
      | exact h1
      | exact h2

/-- Helper: a failing `listTables` result carries no payload field and
a non-empty error string. -/
theorem listTables_err_shape (o : QueryOracle) (s : St)
    (h1 : o.getConnErr ≠ "") (h2 : o.execErr ≠ "") :
    (listTables o s).1.success = false →
      (listTables o s).1.message = none ∧
      (listTables o s).1.results = none ∧
      (listTables o s).1.affected_rows = none ∧
      (listTables o s).1.tables = none ∧
      (listTables o s).1.columns = none ∧
      ∃ m, (listTables o s).1.error = some m ∧ m ≠ "" := by
  unfold listTables
  cases hp : s.pool <;> cases o.getConnOk <;> cases o.execOk <;> simp <;>
    first
      | exact h1
      | exact h2

/-- Helper: a failing `describeTable` result carries no payload field
and a non-empty error string. -/
theorem describeTable_err_shape (t : String) (o : QueryOracle) (s : St)
    (h1 : o.getConnErr ≠ "") (h2 : o.execErr ≠ "") :
    (describeTable t o s).1.success = false →
      (describeTable t o s).1.message = none ∧
      (describeTable t o s).1.results = none ∧
      (describeTable t o s).1.affected_rows = none ∧
      (describeTable t o s).1.tables = none ∧
      (describeTable t o s).1.columns = none ∧
      ∃ m, (describeTable t o s).1.error = some m ∧ m ≠ "" := by
  unfold describeTable
  cases hp : s.pool <;> cases o.getConnOk <;> cases o.execOk <;> simp <;>
    first
      | exact h1
      | exact h2

/-- Helper: a failing `createOrModifyTable` result carries no payload
field and a non-empty error string. -/
theorem createOrModifyTable_err_shape (tn : String) (cols : List Col)
    (uks : List UniqueKey) (o : TableOracle) (s : St)
    (h1 : o.getConnErr ≠ "") (h2 : o.dropErr ≠ "") (h3 : o.createErr ≠ "") :
    (createOrModifyTable tn cols uks o s).1.success = false →
      (createOrModifyTable tn cols uks o s).1.message = none ∧
      (createOrModifyTable tn cols uks o s).1.results = none ∧
      (createOrModifyTable tn cols uks o s).1.affected_rows = none ∧
      (createOrModifyTable tn cols uks o s).1.tables = none ∧
      (createOrModifyTable tn cols uks o s).1.columns = none ∧
      ∃ m, (createOrModifyTable tn cols uks o s).1.error = some m ∧ m ≠ "" := by
  unfold createOrModifyTable
  cases hp : s.pool <;> cases o.getConnOk <;> cases o.dropOk <;> cases o.createOk <;> simp <;>
    first
      | exact h1
      | exact h2
      | exact h3

/-- Helper: the catch-branch text is never the empty string. -/
theorem error_text_nonempty (x : String) : ("Error: " ++ x) ≠ "" := by
  intro h
  have hl := congrArg String.length h
  rw [String.length_append] at hl
  have h7 : String.length "Error: " = 7 := rfl
  have h0 : String.length "" = 0 := rfl
  rw [h7, h0] at hl
  omega

/-- Helper: every `createConnectionPool` call counts as exactly one
connection attempt, whatever its outcome. -/
theorem createConnectionPool_connectCalls (c : Config) (o : ConnOracle) (s : St) :
    (createConnectionPool c o s).2.connectCalls = s.connectCalls + 1 := by
  unfold createConnectionPool
  split
  · rfl
  · cases o.connOk <;> rfl

/-- Helper: with all required fields truthy, `createConnectionPool`
installs the newly created pool whether or not the liveness round trip
succeeds. -/
theorem createConnectionPool_pool_valid (c : Config) (o : ConnOracle) (s : St)
    (hh : truthy c.host = true) (hu : truthy c.user = true) (hp : truthy c.password = true) :
    (createConnectionPool c o s).2.pool = some { cfg := c, id := s.nextId } := by
  unfold createConnectionPool
  simp only [hh, hu, hp]
  cases o.connOk <;> rfl

/-- C4 counterexample: with full environment credentials, no pool, and
an unreachable database server, a `query` request triggers the silent
auto-connect, the attempt fails, and the operation then fails with the
connection error rather than the distinct "Database not connected"
error the claim requires, because the failed auto-connect left its
broken pool installed. -/
theorem auto_connect_failure_not_reported_as_not_connected :
    initSt.pool = none ∧
    truthy (getConfigFromEnv envFull).host = true ∧
    truthy (getConfigFromEnv envFull).user = true ∧
    truthy (getConfigFromEnv envFull).password = true ∧
    (handleRequest (.query "SELECT 1" none) envFull oracleConnFail initSt).1 =
      { rtext := .json { success := false, error := some "connect ECONNREFUSED" },
        isError := false } ∧
    (handleRequest (.query "SELECT 1" none) envFull oracleConnFail initSt).1.rtext ≠
      .json { success := false, error := some "Database not connected" } ∧
    (handleRequest (.query "SELECT 1" none) envFull oracleConnFail initSt).2.pool =
      some { cfg := getConfigFromEnv envFull, id := 0 } := by
  decide

/-- C4 amended: for every registered non-connect operation invoked with
no pool, the dispatcher resolves environment credentials and, exactly
when host, user and password are all truthy, makes exactly one connect
attempt before invoking the operation; when credentials are absent no
attempt is made and the operation fails with "Database not connected";
when the attempt is made but fails, the failed pool remains installed
(so the operation does not report "Database not connected"). -/
theorem auto_connect_attempt_policy (req : ToolCall) (env : EnvVars) (o : DispatchOracle)
    (s : St) (hpool : s.pool = none) (hop : req.isNonConnectOp = true) :
    ((truthy (getConfigFromEnv env).host && truthy (getConfigFromEnv env).user &&
        truthy (getConfigFromEnv env).password) = true →
      (handleRequest req env o s).2.connectCalls = s.connectCalls + 1 ∧
      (o.autoConn.connOk = false →
        (handleRequest req env o s).2.pool =
          some { cfg := getConfigFromEnv env, id := s.nextId })) ∧
    ((truthy (getConfigFromEnv env).host && truthy (getConfigFromEnv env).user &&
        truthy (getConfigFromEnv env).password) = false →
      (handleRequest req env o s).2.connectCalls = s.connectCalls ∧
      (handleRequest req env o s).1 =
        { rtext := .json { success := false, error := some "Database not connected" },
          isError := false }) := by
  cases req with
  | connect_db h u p d => simp [ToolCall.isNonConnectOp] at hop
  | unknown n => simp [ToolCall.isNonConnectOp] at hop
  | query sql ps =>
    refine ⟨fun hc => ?_, fun hc => ?_⟩
    · rw [Bool.and_eq_true, Bool.and_eq_true] at hc
      obtain ⟨⟨h1, h2⟩, h3⟩ := hc
      unfold handleRequest
      simp [hpool, h1, h2, h3, ToolCall.toolName, executeQuery_connectCalls, executeQuery_pool,
        createConnectionPool_connectCalls, createConnectionPool_pool_valid]
    · unfold handleRequest
      simp [hpool, hc, ToolCall.toolName, executeQuery, executeQuery_connectCalls]
  | execute sql ps =>
    refine ⟨fun hc => ?_, fun hc => ?_⟩
    · rw [Bool.and_eq_true, Bool.and_eq_true] at hc
      obtain ⟨⟨h1, h2⟩, h3⟩ := hc
      unfold handleRequest
      simp [hpool, h1, h2, h3, ToolCall.toolName, executeCommand_connectCalls, executeCommand_pool,
        createConnectionPool_connectCalls, createConnectionPool_pool_valid]
    · unfold handleRequest
      simp [hpool, hc, ToolCall.toolName, executeCommand, executeCommand_connectCalls]
  | list_tables =>
    refine ⟨fun hc => ?_, fun hc => ?_⟩
    · rw [Bool.and_eq_true, Bool.and_eq_true] at hc
      obtain ⟨⟨h1, h2⟩, h3⟩ := hc
      unfold handleRequest
      simp [hpool, h1, h2, h3, ToolCall.toolName, listTables_connectCalls, listTables_pool,
        createConnectionPool_connectCalls, createConnectionPool_pool_valid]
    · unfold handleRequest
      simp [hpool, hc, ToolCall.toolName, listTables, listTables_connectCalls]
  | describe_table t =>
    refine ⟨fun hc => ?_, fun hc => ?_⟩
    · rw [Bool.and_eq_true, Bool.and_eq_true] at hc
      obtain ⟨⟨h1, h2⟩, h3⟩ := hc
      unfold handleRequest
      simp [hpool, h1, h2, h3, ToolCall.toolName, describeTable_connectCalls, describeTable_pool,
        createConnectionPool_connectCalls, createConnectionPool_pool_valid]
    · unfold handleRequest
      simp [hpool, hc, ToolCall.toolName, describeTable, describeTable_connectCalls]
  | create_or_modify_table tn cols uks =>
    refine ⟨fun hc => ?_, fun hc => ?_⟩
    · rw [Bool.and_eq_true, Bool.and_eq_true] at hc
      obtain ⟨⟨h1, h2⟩, h3⟩ := hc
      unfold handleRequest
      simp [hpool, h1, h2, h3, ToolCall.toolName, createOrModifyTable_connectCalls, createOrModifyTable_pool,
        createConnectionPool_connectCalls, createConnectionPool_pool_valid]
    · unfold handleRequest
      simp [hpool, hc, ToolCall.toolName, createOrModifyTable, createOrModifyTable_connectCalls]

/-- Witness for the amended C4: `list_tables` with full environment
credentials, no pool, and an unreachable server. -/
theorem auto_connect_attempt_policy_witness :
    (initSt.pool = none ∧ ToolCall.list_tables.isNonConnectOp = true) ∧
    (((truthy (getConfigFromEnv envFull).host && truthy (getConfigFromEnv envFull).user &&
        truthy (getConfigFromEnv envFull).password) = true →
      (handleRequest ToolCall.list_tables envFull oracleConnFail initSt).2.connectCalls =
        initSt.connectCalls + 1 ∧
      (oracleConnFail.autoConn.connOk = false →
        (handleRequest ToolCall.list_tables envFull oracleConnFail initSt).2.pool =
          some { cfg := getConfigFromEnv envFull, id := initSt.nextId })) ∧
    ((truthy (getConfigFromEnv envFull).host && truthy (getConfigFromEnv envFull).user &&
        truthy (getConfigFromEnv envFull).password) = false →
      (handleRequest ToolCall.list_tables envFull oracleConnFail initSt).2.connectCalls =
        initSt.connectCalls ∧
      (handleRequest ToolCall.list_tables envFull oracleConnFail initSt).1 =
        { rtext := .json { success := false, error := some "Database not connected" },
          isError := false })) :=
  ⟨⟨rfl, rfl⟩,
   auto_connect_attempt_policy ToolCall.list_tables envFull oracleConnFail initSt rfl rfl⟩

/-- C5: the handler is a total function, so every well-formed request
yields exactly one response; whenever that response carries an
operation result with success=false, the result carries no payload
field (no message, results, affected_rows, tables or columns) and its
error field is a non-empty string; the catch-branch text is likewise
non-empty. -/
theorem error_envelope_totality (req : ToolCall) (env : EnvVars) (o : DispatchOracle)
    (s : St) (hwf : DispatchOracle.wf o) :
    match (handleRequest req env o s).1.rtext with
    | .json r => r.success = false →
        r.message = none ∧ r.results = none ∧ r.affected_rows = none ∧
        r.tables = none ∧ r.columns = none ∧ ∃ m, r.error = some m ∧ m ≠ ""
    | .errorText m => m ≠ "" := by
  obtain ⟨w1, w2, w3, w4, w5, w6, w7⟩ := hwf
  cases req with
  | connect_db h u p d => exact createConnectionPool_err_shape _ o.conn _ w2
  | create_or_modify_table tn cols uks =>
    exact createOrModifyTable_err_shape tn cols (uks.getD []) o.t _ w5 w6 w7
  | query sql ps => exact executeQuery_err_shape sql (ps.getD []) o.q _ w3 w4
  | execute sql ps => exact executeCommand_err_shape sql (ps.getD []) o.q _ w3 w4
  | list_tables => exact listTables_err_shape o.q _ w3 w4
  | describe_table t => exact describeTable_err_shape t o.q _ w3 w4
  | unknown n => exact error_text_nonempty _

/-- Witness for C5: a `query` request against an engine whose execute
call fails, from the initial state with no credentials. -/
theorem error_envelope_totality_witness :
    DispatchOracle.wf wfFailOracle ∧
    (match (handleRequest (.query "SELECT 1" none) envEmpty wfFailOracle initSt).1.rtext with
     | .json r => r.success = false →
         r.message = none ∧ r.results = none ∧ r.affected_rows = none ∧
         r.tables = none ∧ r.columns = none ∧ ∃ m, r.error = some m ∧ m ≠ ""
     | .errorText m => m ≠ "") :=
  ⟨⟨by decide, by decide, by decide, by decide, by decide, by decide, by decide⟩,
   error_envelope_totality (.query "SELECT 1" none) envEmpty wfFailOracle initSt
     ⟨by decide, by decide, by decide, by decide, by decide, by decide, by decide⟩⟩

/-- C6: a request naming an unregistered tool yields the unknown-tool
error response (the thrown MethodNotFound McpError is caught by the
handler and converted into an isError envelope whose text names the
tool), and the handler returns normally, so neither the dispatcher nor
the process terminates. -/
theorem unknown_tool_error_response (n : String) (env : EnvVars) (o : DispatchOracle)
    (s : St) (h : n ∉ registeredTools) :
    (handleRequest (.unknown n) env o s).1 =
      { rtext := .errorText ("Error: " ++ ("Unknown tool: " ++ n)), isError := true } :=
  rfl

/-- Witness for C6 at the unregistered tool name "drop_everything". -/
theorem unknown_tool_error_response_witness :
    "drop_everything" ∉ registeredTools ∧
    (handleRequest (.unknown "drop_everything") envEmpty wfFailOracle initSt).1 =
      { rtext := .errorText ("Error: " ++ ("Unknown tool: " ++ "drop_everything")),
        isError := true } :=
  ⟨by decide,
   unknown_tool_error_response "drop_everything" envEmpty wfFailOracle initSt (by decide)⟩
